import Mathlib

/-!
Shallow embedding of the latest-activity pipeline of this repository.

The batch pipeline (scripts/fetch-strava.mjs, paginated variant) is embedded
as pure functions over a `World` describing the responses of the upstream
service, with the filesystem threaded explicitly as an `FS` record and the
network requests that a run issues collected in a `Trace`.  JavaScript
numbers are modelled as rationals, `Math.floor` as the integer floor,
`Math.round x` as the floor of `x + 1/2`, and the JS remainder operator as
truncation-based remainder.  JavaScript string falsiness (the empty string)
is modelled by `strOr`.  The live-serving handler (src/api/strava-latest.ts)
is embedded separately as `handlerGET` over the same `World`.
-/

namespace Site

/-- JS falsy-aware choice on optional strings: models `a || b` where a
nullish or empty-string left operand falls through to the right operand. -/
def strOr (a b : Option String) : Option String :=
  match a with
  | some s => if s = "" then b else some s
  | none => b

/-- JS `Math.round`: floor of the argument plus one half. -/
def jsRound (q : ℚ) : ℤ := ⌊q + 1/2⌋

/-- JS truncation toward zero, used by the JS remainder operator. -/
def jsTrunc (q : ℚ) : ℤ := if 0 ≤ q then ⌊q⌋ else ⌈q⌉

/-- JS remainder `a % b`: the remainder after truncated division, carrying
the sign of the dividend. -/
def jsMod (a b : ℚ) : ℚ := a - b * (jsTrunc (a / b) : ℚ)

/-- JS `String(n).padStart(2, "0")` for an integer `n`: a single leading
zero is added exactly when the decimal string has one character. -/
def pad2 (n : ℤ) : String := if 0 ≤ n ∧ n < 10 then "0" ++ toString n else toString n

/-- JS `Number.prototype.toFixed(2)` on the nonnegative values this program
feeds it: round to the nearest hundredth, ties away from zero. -/
def fix2 (x : ℚ) : String :=
  toString (⌊x * 100 + 1/2⌋ / 100) ++ "." ++ pad2 (⌊x * 100 + 1/2⌋ % 100)

/-- JS `Number.prototype.toFixed(1)` on the nonnegative values this program
feeds it. -/
def fix1 (x : ℚ) : String :=
  toString (⌊x * 10 + 1/2⌋ / 10) ++ "." ++ toString (⌊x * 10 + 1/2⌋ % 10)

/-- Embeds `hms` of scripts/fetch-strava.mjs: renders a duration in seconds
as `H:MM:SS` when the hour part is positive and as `M:SS` otherwise. -/
def hms (totalSeconds : ℚ) : String :=
  let h : ℤ := ⌊totalSeconds / 3600⌋
  let m : ℤ := ⌊jsMod totalSeconds 3600 / 60⌋
  let s : ℤ := jsRound (jsMod totalSeconds 60)
  if 0 < h then toString h ++ ":" ++ pad2 m ++ ":" ++ pad2 s
  else toString m ++ ":" ++ pad2 s

/-- One activity record of the upstream feed, with the fields the program
reads; absent JSON fields are `none`. -/
structure Activity where
  id : Nat
  type : Option String := none
  sport_type : Option String := none
  distance : Option ℚ := none
  moving_time : Option ℚ := none
  elapsed_time : Option ℚ := none
  total_photo_count : Option ℤ := none
deriving DecidableEq

/-- One photo entry as returned by the photo endpoints: the sized URL map
plus the generic `url` field. -/
structure Photo where
  urls2048 : Option String := none
  urls1200 : Option String := none
  urls1000 : Option String := none
  url : Option String := none
deriving DecidableEq

/-- Body of a successful token exchange. -/
structure TokenData where
  access_token : String
  refresh_token : Option String := none
deriving DecidableEq

/-- Outcome of one best-effort photo-tier request: a thrown transport
error, a non-success HTTP status, or a successful response with a body. -/
inductive TResp (α : Type) where
  | throwErr : TResp α
  | notOk : TResp α
  | ok : α → TResp α
deriving DecidableEq

/-- The environment of one run: configuration and the responses the
upstream service gives to each request the program can issue.  Page
requests are keyed by per-page size and page number; an `Except.error`
models both a thrown transport error and a non-success status (the code
turns the latter into a throw), `Except.ok none` models a non-array JSON
body.  Gallery requests are keyed by activity id and requested size. -/
structure World where
  inputRefreshToken : String
  athleteId : Option String
  now : String
  tokenRes : Except String TokenData
  actsPage : Nat → Nat → Except String (Option (List Activity))
  gallery : Nat → Nat → TResp (Option (List Photo))
  detail : Nat → TResp (Option Photo)

/-- The display-stats structure `buildStats` produces: a run variant with
pace, a ride variant with speed, or a duration-only variant. -/
inductive Stats where
  | run (distance pace duration : String)
  | ride (distance speed duration : String)
  | other (duration : String)
deriving DecidableEq

/-- The payload written to public/data/strava-latest.json: either the
success shape or the error shape. -/
inductive Payload where
  | success (athleteUrl : Option String) (activityUrl : String)
      (photoUrl : Option String) (stats : Stats) (fetchedAt : String)
  | error (message : String) (fetchedAt : String)
deriving DecidableEq

/-- The durable filesystem artifacts the script touches: the payload file,
the rotation side-channel file, and a count of payload writes. -/
structure FS where
  payload : Option Payload := none
  rotation : Option String := none
  payloadWrites : Nat := 0
deriving DecidableEq

/-- The authorized requests one run issues: feed-page requests as
(bearer, perPage, page) and per-activity photo resolutions as
(bearer, activity), plus the count of activities the inner loop examined. -/
structure Trace where
  pageReqs : List (String × Nat × Nat)
  resolved : List (String × Activity)
  examined : Nat
deriving DecidableEq

/-- Embeds `pickBestPhotoUrl`: first truthy of the 2048, 1200 and 1000
sized URLs and the generic `url`, else null. -/
def pickBestPhotoUrl (p : Option Photo) : Option String :=
  match p with
  | none => none
  | some p => strOr p.urls2048 (strOr p.urls1200 (strOr p.urls1000 (strOr p.url none)))

/-- The `moving_time ?? elapsed_time ?? 0` fallback chain. -/
def movingOf (a : Activity) : ℚ := a.moving_time.getD (a.elapsed_time.getD 0)

/-- The `(distance ?? 0) / 1000` kilometre conversion. -/
def distKmOf (a : Activity) : ℚ := a.distance.getD 0 / 1000

/-- Embeds `buildStats` of scripts/fetch-strava.mjs. -/
def buildStats (a : Activity) : Stats :=
  let distanceKm := distKmOf a
  let moving := movingOf a
  let type := strOr a.sport_type a.type
  if (type = some "Run" ∨ type = some "TrailRun") ∧ 0 < distanceKm then
    let paceSecPerKm := moving / distanceKm
    Stats.run (fix2 distanceKm ++ " km")
      (toString ⌊paceSecPerKm / 60⌋ ++ ":" ++ pad2 (jsRound (jsMod paceSecPerKm 60)) ++ "/km")
      (hms moving)
  else if (type = some "Ride" ∨ type = some "VirtualRide") ∧ 0 < distanceKm then
    let hours := moving / 3600
    let kph := if 0 < hours then distanceKm / hours else 0
    Stats.ride (fix2 distanceKm ++ " km") (fix1 kph ++ " km/h") (hms moving)
  else Stats.other (hms moving)

/-- Gallery tier of the photo resolution (lines 111 to 123 of the batch
script): a thrown error, a non-success status, a non-array body, an empty
list, or an all-falsy URL set all yield nothing from this tier. -/
def galleryBest (w : World) (id : Nat) : Option String :=
  match w.gallery id 2048 with
  | TResp.ok (some (p :: _)) => pickBestPhotoUrl (some p)
  | _ => none

/-- Cover-photo tier of the photo resolution (lines 126 to 136 of the
batch script), reading `detail.photos.primary` of the activity detail. -/
def detailBest (w : World) (id : Nat) : Option String :=
  match w.detail id with
  | TResp.ok d => pickBestPhotoUrl d
  | _ => none

/-- Two-tier photo resolution for one activity: the gallery tier first,
the cover-photo tier second; total, so no failure can escape it. -/
def resolvePhoto (w : World) (id : Nat) : Option String :=
  match galleryBest w id with
  | some u => some u
  | none => detailBest w id

/-- Inner loop of `findLatestActivityWithPhoto` over one page: skip
activities with a zero or absent photo count, resolve the rest in order,
stop at the first hit.  Returns the hit, the resolver invocations, and the
number of activities examined. -/
def scanPage (w : World) (access : String) :
    List Activity → Option (Activity × String) × List (String × Activity) × Nat
  | [] => (none, [], 0)
  | a :: rest =>
    if a.total_photo_count.getD 0 ≤ 0 then
      let r := scanPage w access rest
      (r.1, r.2.1, r.2.2 + 1)
    else
      match resolvePhoto w a.id with
      | some u => (some (a, u), [(access, a)], 1)
      | none =>
        let r := scanPage w access rest
        (r.1, (access, a) :: r.2.1, r.2.2 + 1)

/-- The page bound of the discovery scan. -/
def MAX_PAGES : Nat := 40

/-- The fixed page size of the discovery scan. -/
def PER_PAGE : Nat := 50

/-- Outer loop of `findLatestActivityWithPhoto`, structurally recursive on
the remaining page budget: fetch one page, stop on a fetch failure (fatal),
on a non-array body or an empty page (break), or on the first hit. -/
def findPages (w : World) (access : String) :
    Nat → Nat → Except String (Option (Activity × String)) × Trace
  | 0, _ => (Except.ok none, ⟨[], [], 0⟩)
  | Nat.succ fuel, page =>
    match w.actsPage PER_PAGE page with
    | Except.error e => (Except.error e, ⟨[(access, PER_PAGE, page)], [], 0⟩)
    | Except.ok none => (Except.ok none, ⟨[(access, PER_PAGE, page)], [], 0⟩)
    | Except.ok (some []) => (Except.ok none, ⟨[(access, PER_PAGE, page)], [], 0⟩)
    | Except.ok (some (a :: rest)) =>
      let s := scanPage w access (a :: rest)
      match s.1 with
      | some hit => (Except.ok (some hit), ⟨[(access, PER_PAGE, page)], s.2.1, s.2.2⟩)
      | none =>
        let r := findPages w access fuel (page + 1)
        (r.1, ⟨(access, PER_PAGE, page) :: r.2.pageReqs, s.2.1 ++ r.2.resolved,
               s.2.2 + r.2.examined⟩)

/-- Embeds `findLatestActivityWithPhoto`: a bounded scan starting at page 1
with at most `MAX_PAGES` pages of `PER_PAGE` activities. -/
def findLatestActivityWithPhoto (w : World) (access : String) :
    Except String (Option (Activity × String)) × Trace :=
  findPages w access MAX_PAGES 1

/-- Embeds `writePayload`: overwrites the payload file and counts the
write; it touches nothing else. -/
def writePayload (p : Payload) (fs : FS) : FS :=
  { fs with payload := some p, payloadWrites := fs.payloadWrites + 1 }

/-- Embeds `refreshAccessToken`: on a successful exchange, writes the
rotation side-channel file exactly when the response carries a truthy
refresh token different from the input credential, and returns the fresh
access token. -/
def refreshAccessToken (w : World) (fs : FS) : Except String (String × FS) :=
  match w.tokenRes with
  | Except.error e => Except.error e
  | Except.ok d =>
    match d.refresh_token with
    | some rt =>
      if rt ≠ "" ∧ rt ≠ w.inputRefreshToken then
        Except.ok (d.access_token, { fs with rotation := some rt })
      else Except.ok (d.access_token, fs)
    | none => Except.ok (d.access_token, fs)

/-- The athlete profile URL, present only when the athlete id is truthy. -/
def athleteUrl (w : World) : Option String :=
  match strOr w.athleteId none with
  | some s => some ("https://www.strava.com/athletes/" ++ s)
  | none => none

/-- The activity page URL. -/
def activityUrl (id : Nat) : String :=
  "https://www.strava.com/activities/" ++ toString id

/-- The body of `run()` before the outermost catch: token exchange, then
discovery, then either the success payload, the stats-only fallback via a
single-activity fetch, or the no-activities error payload.  A thrown error
carries the filesystem and trace as they stood at the throw. -/
def runBody (w : World) (fs : FS) : Except (String × FS × Trace) (FS × Trace) :=
  match refreshAccessToken w fs with
  | Except.error e => Except.error (e, fs, ⟨[], [], 0⟩)
  | Except.ok (access, fs1) =>
    let f := findLatestActivityWithPhoto w access
    match f.1 with
    | Except.error e => Except.error (e, fs1, f.2)
    | Except.ok (some hit) =>
      Except.ok (writePayload
        (Payload.success (athleteUrl w) (activityUrl hit.1.id) (some hit.2)
          (buildStats hit.1) w.now) fs1, f.2)
    | Except.ok none =>
      let t1 : Trace := ⟨f.2.pageReqs ++ [(access, 1, 1)], f.2.resolved, f.2.examined⟩
      match w.actsPage 1 1 with
      | Except.error e => Except.error (e, fs1, t1)
      | Except.ok body =>
        match (body.getD []).head? with
        | none =>
          Except.ok (writePayload (Payload.error ("No activities found") w.now) fs1, t1)
        | some a =>
          Except.ok (writePayload
            (Payload.success (athleteUrl w) (activityUrl a.id) none
              (buildStats a) w.now) fs1, t1)

/-- Embeds `run().catch(...)`: a thrown error anywhere in the body is
converted into the error payload, written over the filesystem state that
stood at the throw. -/
def runScript (w : World) (fs : FS) : FS × Trace :=
  match runBody w fs with
  | Except.ok r => r
  | Except.error (e, fs1, t) => (writePayload (Payload.error e w.now) fs1, t)

/-- The rotation file as it stands right after the token exchange step. -/
def rotationAfterExchange (w : World) (fs : FS) : Option String :=
  match refreshAccessToken w fs with
  | Except.ok r => r.2.rotation
  | Except.error _ => fs.rotation

/-- Photo URL preference of the live handler (src/api/strava-latest.ts):
first truthy of the 1200, 1000 and 2048 sized URLs and the generic `url`,
else null. -/
def pickHandlerPhotoUrl (p : Option Photo) : Option String :=
  match p with
  | none => none
  | some p => strOr p.urls1200 (strOr p.urls1000 (strOr p.urls2048 (strOr p.url none)))

/-- Stats computation of the live handler: keyed on the `type` field only,
with a run variant and a duration-only variant and no ride variant. -/
def handlerStats (a : Activity) : Stats :=
  let distanceKm := distKmOf a
  let durationSec := movingOf a
  if (a.type = some "Run" ∨ a.type = some "TrailRun") ∧ 0 < distanceKm then
    let paceSecPerKm := durationSec / distanceKm
    Stats.run (fix2 distanceKm ++ " km")
      (toString ⌊paceSecPerKm / 60⌋ ++ ":" ++ pad2 (jsRound (jsMod paceSecPerKm 60)) ++ "/km")
      (hms durationSec)
  else Stats.other (hms durationSec)

/-- Response of the live handler: the 200 JSON body, the empty 204
response, or the 500 error body. -/
inductive HResp where
  | ok (photoUrl : Option String) (stats : Stats) (activityUrl : String)
  | noContent : HResp
  | error (message : String)
deriving DecidableEq

/-- Embeds the GET route of src/api/strava-latest.ts: one page of 10
activities, the first with a positive photo count (else the newest), a
single best-effort gallery request at size 1200, stats, and a catch-all
turning any throw into the 500 response.  A non-array feed body makes
`activities.find` throw, which the catch-all converts as well. -/
def handlerGET (w : World) : HResp :=
  match w.tokenRes with
  | Except.error e => HResp.error e
  | Except.ok _ =>
    match w.actsPage 10 1 with
    | Except.error e => HResp.error e
    | Except.ok none => HResp.error ("activities.find is not a function")
    | Except.ok (some acts) =>
      match (acts.find? (fun a => decide (0 < a.total_photo_count.getD 0))).or acts.head? with
      | none => HResp.noContent
      | some picked =>
        let photoUrl :=
          match w.gallery picked.id 1200 with
          | TResp.ok (some (p :: _)) => pickHandlerPhotoUrl (some p)
          | _ => none
        HResp.ok photoUrl (handlerStats picked) (activityUrl picked.id)

/-- A run-type activity of 5000 metres and 1500 seconds with one photo,
the worked example of the specification. -/
def runActivity : Activity :=
  { id := 1, type := some ("Run"), distance := some 5000,
    moving_time := some 1500, total_photo_count := some 1 }

/-- A ride-type activity with an absent distance. -/
def rideNoDistance : Activity :=
  { id := 2, type := some ("Ride"), moving_time := some 100 }

/-- A photo carrying both a 2048 and a 1200 sized URL. -/
def photoBoth : Photo := { urls2048 := some ("U2048"), urls1200 := some ("U1200") }

/-- A photo carrying only the generic fallback URL. -/
def photoGeneric : Photo := { url := some ("U") }

/-- A world whose feed holds exactly `runActivity`, whose gallery answers
with `photoBoth` at every requested size, and whose detail tier fails. -/
def worldBoth : World :=
  { inputRefreshToken := "R0", athleteId := none, now := "T",
    tokenRes := Except.ok { access_token := "A" },
    actsPage := fun _ pg => if pg = 1 then Except.ok (some [runActivity]) else Except.ok (some []),
    gallery := fun id _ => if id = 1 then TResp.ok (some [photoBoth]) else TResp.notOk,
    detail := fun _ => TResp.notOk }

/-- A world like `worldBoth` whose gallery answers with the single-URL
`photoGeneric`, and whose token exchange rotates the refresh token. -/
def worldGeneric : World :=
  { inputRefreshToken := "R0", athleteId := none, now := "T",
    tokenRes := Except.ok { access_token := "A", refresh_token := some ("R1") },
    actsPage := fun _ pg => if pg = 1 then Except.ok (some [runActivity]) else Except.ok (some []),
    gallery := fun id _ => if id = 1 then TResp.ok (some [photoGeneric]) else TResp.notOk,
    detail := fun _ => TResp.notOk }

/-- A world whose feed is empty on every page and whose token exchange
succeeds without rotation. -/
def worldEmptyFeed : World :=
  { inputRefreshToken := "R0", athleteId := none, now := "T",
    tokenRes := Except.ok { access_token := "A" },
    actsPage := fun _ _ => Except.ok (some []),
    gallery := fun _ _ => TResp.notOk,
    detail := fun _ => TResp.notOk }

/-- A world whose token exchange rotates the refresh token and whose feed
fetch then fails, so the run ends in the error payload. -/
def worldRotateThenFail : World :=
  { inputRefreshToken := "R0", athleteId := none, now := "T",
    tokenRes := Except.ok { access_token := "A", refresh_token := some ("R1") },
    actsPage := fun _ _ => Except.error ("boom"),
    gallery := fun _ _ => TResp.notOk,
    detail := fun _ => TResp.notOk }

/-- A world where the gallery tier throws and the detail tier carries a
cover photo. -/
def worldCover : World :=
  { inputRefreshToken := "R0", athleteId := none, now := "T",
    tokenRes := Except.ok { access_token := "A" },
    actsPage := fun _ pg => if pg = 1 then Except.ok (some [runActivity]) else Except.ok (some []),
    gallery := fun _ _ => TResp.throwErr,
    detail := fun id => if id = 1 then TResp.ok (some photoGeneric) else TResp.notOk }

lemma jsTrunc_of_nonneg {q : ℚ} (h : 0 ≤ q) : jsTrunc q = ⌊q⌋ := by
  simp [jsTrunc, h]

lemma jsMod_eq_sub_floor {a b : ℚ} (ha : 0 ≤ a) (hb : 0 < b) :
    jsMod a b = a - b * (⌊a / b⌋ : ℚ) := by
  rw [jsMod, jsTrunc_of_nonneg (div_nonneg ha hb.le)]

lemma jsMod_eq_mul_fract {a b : ℚ} (ha : 0 ≤ a) (hb : 0 < b) :
    jsMod a b = b * Int.fract (a / b) := by
  rw [jsMod_eq_sub_floor ha hb, Int.fract]
  field_simp

lemma jsMod_nonneg {a b : ℚ} (ha : 0 ≤ a) (hb : 0 < b) : 0 ≤ jsMod a b := by
  rw [jsMod_eq_mul_fract ha hb]
  exact mul_nonneg hb.le (Int.fract_nonneg _)

lemma jsMod_lt {a b : ℚ} (ha : 0 ≤ a) (hb : 0 < b) : jsMod a b < b := by
  rw [jsMod_eq_mul_fract ha hb]
  calc b * Int.fract (a / b) < b * 1 := by
        exact mul_lt_mul_of_pos_left (Int.fract_lt_one _) hb
    _ = b := mul_one b

lemma jsMod_self_of_lt {a b : ℚ} (ha : 0 ≤ a) (hab : a < b) : jsMod a b = a := by
  have hb : 0 < b := lt_of_le_of_lt ha hab
  have h1 : ⌊a / b⌋ = 0 := by
    rw [Int.floor_eq_zero_iff]
    constructor
    · exact div_nonneg ha hb.le
    · rw [div_lt_one hb]
      exact hab
  rw [jsMod_eq_sub_floor ha hb, h1]
  simp

lemma floor_div_pos_iff {t c : ℚ} (hc : 0 < c) :
    0 < ⌊t / c⌋ ↔ c ≤ t := by
  rw [Int.floor_pos, one_le_div hc]

lemma jsRound_mod_nonneg {a b : ℚ} (ha : 0 ≤ a) (hb : 0 < b) :
    0 ≤ jsRound (jsMod a b) := by
  rw [jsRound, Int.le_floor]
  have := jsMod_nonneg ha hb
  push_cast
  linarith

lemma jsRound_mod_sixty_le {a : ℚ} (ha : 0 ≤ a) :
    jsRound (jsMod a 60) ≤ 60 := by
  have h1 : jsMod a 60 < 60 := jsMod_lt ha (by norm_num)
  have h2 : ⌊jsMod a 60 + 1/2⌋ ≤ ⌊(121 : ℚ)/2⌋ := Int.floor_le_floor (by linarith)
  have h3 : ⌊(121 : ℚ)/2⌋ = 60 := by norm_num
  rw [jsRound]
  omega

lemma minutes_nonneg {x : ℚ} (hx : 0 ≤ x) : 0 ≤ ⌊x / 60⌋ :=
  Int.floor_nonneg.mpr (div_nonneg hx (by norm_num))

lemma minutes_lt_sixty {x : ℚ} (hx : x < 3600) : ⌊x / 60⌋ < 60 := by
  rw [Int.floor_lt]
  rw [div_lt_iff₀ (by norm_num : (0:ℚ) < 60)]
  push_cast
  linarith

/-- Shape of `hms` when the duration reaches one hour: hours, zero-padded
minutes below sixty, zero-padded rounded seconds. -/
lemma hms_long {t : ℚ} (h0 : 0 ≤ t) (h1 : 3600 ≤ t) :
    hms t = toString ⌊t / 3600⌋ ++ ":" ++ pad2 ⌊jsMod t 3600 / 60⌋ ++ ":"
      ++ pad2 (jsRound (jsMod t 60))
    ∧ 0 < ⌊t / 3600⌋
    ∧ 0 ≤ ⌊jsMod t 3600 / 60⌋ ∧ ⌊jsMod t 3600 / 60⌋ < 60
    ∧ 0 ≤ jsRound (jsMod t 60) ∧ jsRound (jsMod t 60) ≤ 60 := by
  have hpos : 0 < ⌊t / 3600⌋ := (floor_div_pos_iff (by norm_num)).mpr h1
  have hmn : 0 ≤ jsMod t 3600 := jsMod_nonneg h0 (by norm_num)
  have hmx : jsMod t 3600 < 3600 := jsMod_lt h0 (by norm_num)
  refine ⟨?_, hpos, minutes_nonneg hmn, minutes_lt_sixty hmx,
    jsRound_mod_nonneg h0 (by norm_num), jsRound_mod_sixty_le h0⟩
  rw [hms]
  simp only [if_pos hpos]

/-- Shape of `hms` below one hour: minutes below sixty with no hour part,
zero-padded rounded seconds. -/
lemma hms_short {t : ℚ} (h0 : 0 ≤ t) (h1 : t < 3600) :
    hms t = toString ⌊t / 60⌋ ++ ":" ++ pad2 (jsRound (jsMod t 60))
    ∧ 0 ≤ ⌊t / 60⌋ ∧ ⌊t / 60⌋ < 60
    ∧ 0 ≤ jsRound (jsMod t 60) ∧ jsRound (jsMod t 60) ≤ 60 := by
  have hz : ¬ 0 < ⌊t / 3600⌋ := by
    rw [floor_div_pos_iff (by norm_num)]
    linarith
  have hmod : jsMod t 3600 = t := jsMod_self_of_lt h0 h1
  refine ⟨?_, minutes_nonneg h0, minutes_lt_sixty h1,
    jsRound_mod_nonneg h0 (by norm_num), jsRound_mod_sixty_le h0⟩
  rw [hms]
  simp only [if_neg hz, hmod]

lemma scanPage_resolved (w : World) (access : String) :
    ∀ l : List Activity, ∀ q ∈ (scanPage w access l).2.1,
      q.1 = access ∧ 0 < q.2.total_photo_count.getD 0 := by
  intro l
  induction l with
  | nil => intro q hq; simp [scanPage] at hq
  | cons a rest ih =>
    intro q hq
    by_cases hc : a.total_photo_count.getD 0 ≤ 0
    · rw [scanPage, if_pos hc] at hq
      exact ih q hq
    · rw [scanPage, if_neg hc] at hq
      rcases hrp : resolvePhoto w a.id with _ | u
      · rw [hrp] at hq
        simp only [List.mem_cons] at hq
        rcases hq with hq | hq
        · subst hq
          exact ⟨rfl, lt_of_not_le hc⟩
        · exact ih q hq
      · rw [hrp] at hq
        simp only [List.mem_singleton] at hq
        subst hq
        exact ⟨rfl, lt_of_not_le hc⟩

lemma scanPage_examined_le (w : World) (access : String) :
    ∀ l : List Activity, (scanPage w access l).2.2 ≤ l.length := by
  intro l
  induction l with
  | nil => simp [scanPage]
  | cons a rest ih =>
    by_cases hc : a.total_photo_count.getD 0 ≤ 0
    · rw [scanPage, if_pos hc]
      simpa using ih
    · rw [scanPage, if_neg hc]
      rcases hrp : resolvePhoto w a.id with _ | u
      · simpa using ih
      · simp

lemma findPages_pageReqs (w : World) (access : String) :
    ∀ fuel page, ∀ q ∈ (findPages w access fuel page).2.pageReqs,
      q.1 = access ∧ q.2.1 = PER_PAGE ∧ page ≤ q.2.2 ∧ q.2.2 < page + fuel := by
  intro fuel
  induction fuel with
  | zero => intro page q hq; simp [findPages] at hq
  | succ fuel ih =>
    intro page q hq
    rcases hp : w.actsPage PER_PAGE page with e | body
    · rw [findPages, hp] at hq
      simp only [List.mem_singleton] at hq
      subst hq
      exact ⟨rfl, rfl, le_refl _, Nat.lt_add_of_pos_right (Nat.succ_pos fuel)⟩
    · rcases body with _ | acts
      · rw [findPages, hp] at hq
        simp only [List.mem_singleton] at hq
        subst hq
        exact ⟨rfl, rfl, le_refl _, Nat.lt_add_of_pos_right (Nat.succ_pos fuel)⟩
      · rcases acts with _ | ⟨a, rest⟩
        · rw [findPages, hp] at hq
          simp only [List.mem_singleton] at hq
          subst hq
          exact ⟨rfl, rfl, le_refl _, Nat.lt_add_of_pos_right (Nat.succ_pos fuel)⟩
        · rw [findPages, hp] at hq
          dsimp only at hq
          rcases hs : (scanPage w access (a :: rest)).1 with _ | hit
          · rw [hs] at hq
            simp only [List.mem_cons] at hq
            rcases hq with hq | hq
            · subst hq
              exact ⟨rfl, rfl, le_refl _, Nat.lt_add_of_pos_right (Nat.succ_pos fuel)⟩
            · obtain ⟨h1, h2, h3, h4⟩ := ih (page + 1) q hq
              exact ⟨h1, h2, by omega, by omega⟩

          · rw [hs] at hq
            simp only [List.mem_singleton] at hq
            subst hq
            exact ⟨rfl, rfl, le_refl _, Nat.lt_add_of_pos_right (Nat.succ_pos fuel)⟩

lemma findPages_reqs_len (w : World) (access : String) :
    ∀ fuel page, (findPages w access fuel page).2.pageReqs.length ≤ fuel := by
  intro fuel
  induction fuel with
  | zero => intro page; simp [findPages]
  | succ fuel ih =>
    intro page
    rcases hp : w.actsPage PER_PAGE page with e | body
    · simp [findPages, hp]
    · rcases body with _ | acts
      · simp [findPages, hp]
      · rcases acts with _ | ⟨a, rest⟩
        · simp [findPages, hp]
        · rw [findPages, hp]
          dsimp only
          rcases hs : (scanPage w access (a :: rest)).1 with _ | hit
          · dsimp only
            simp only [List.length_cons]
            have := ih (page + 1)
            omega
          · dsimp only
            simp

lemma findPages_head (w : World) (access : String) (fuel page : Nat) (h : 0 < fuel) :
    (findPages w access fuel page).2.pageReqs.head? = some (access, PER_PAGE, page) := by
  rcases fuel with _ | fuel
  · omega
  rcases hp : w.actsPage PER_PAGE page with e | body
  · simp [findPages, hp]
  · rcases body with _ | acts
    · simp [findPages, hp]
    · rcases acts with _ | ⟨a, rest⟩
      · simp [findPages, hp]
      · rw [findPages, hp]
        dsimp only
        rcases hs : (scanPage w access (a :: rest)).1 with _ | hit
        · rfl
        · rfl

lemma findPages_resolved (w : World) (access : String) :
    ∀ fuel page, ∀ q ∈ (findPages w access fuel page).2.resolved,
      q.1 = access ∧ 0 < q.2.total_photo_count.getD 0 := by
  intro fuel
  induction fuel with
  | zero => intro page q hq; simp [findPages] at hq
  | succ fuel ih =>
    intro page q hq
    rcases hp : w.actsPage PER_PAGE page with e | body
    · rw [findPages, hp] at hq; simp at hq
    · rcases body with _ | acts
      · rw [findPages, hp] at hq; simp at hq
      · rcases acts with _ | ⟨a, rest⟩
        · rw [findPages, hp] at hq; simp at hq
        · rw [findPages, hp] at hq
          dsimp only at hq
          rcases hs : (scanPage w access (a :: rest)).1 with _ | hit
          · rw [hs] at hq
            simp only [List.mem_append] at hq
            rcases hq with hq | hq
            · exact scanPage_resolved w access (a :: rest) q hq
            · exact ih (page + 1) q hq
          · rw [hs] at hq
            exact scanPage_resolved w access (a :: rest) q hq

lemma findPages_examined (w : World) (access : String)
    (hlen : ∀ p acts, w.actsPage PER_PAGE p = Except.ok (some acts) → acts.length ≤ PER_PAGE) :
    ∀ fuel page, (findPages w access fuel page).2.examined ≤ fuel * PER_PAGE := by
  intro fuel
  induction fuel with
  | zero => intro page; simp [findPages]
  | succ fuel ih =>
    intro page
    rcases hp : w.actsPage PER_PAGE page with e | body
    · simp [findPages, hp]
    · rcases body with _ | acts
      · simp [findPages, hp]
      · rcases acts with _ | ⟨a, rest⟩
        · simp [findPages, hp]
        · rw [findPages, hp]
          dsimp only
          have hsc : (scanPage w access (a :: rest)).2.2 ≤ PER_PAGE := by
            calc (scanPage w access (a :: rest)).2.2 ≤ (a :: rest).length :=
                  scanPage_examined_le w access (a :: rest)
              _ ≤ PER_PAGE := hlen page (a :: rest) hp
          rcases hs : (scanPage w access (a :: rest)).1 with _ | hit
          · have := ih (page + 1)
            dsimp only
            calc (scanPage w access (a :: rest)).2.2
                  + (findPages w access fuel (page + 1)).2.examined
                ≤ PER_PAGE + fuel * PER_PAGE := Nat.add_le_add hsc this
              _ = (fuel + 1) * PER_PAGE := by ring
          · dsimp only
            calc (scanPage w access (a :: rest)).2.2 ≤ PER_PAGE := hsc
              _ ≤ (fuel + 1) * PER_PAGE := by
                  have h1 : 1 * PER_PAGE ≤ (fuel + 1) * PER_PAGE :=
                    Nat.mul_le_mul_right _ (by omega)
                  omega

lemma findPages_empty_stop (w : World) (access : String) (k : Nat)
    (hk : w.actsPage PER_PAGE k = Except.ok (some [])) :
    ∀ fuel page, page ≤ k →
      ∀ q ∈ (findPages w access fuel page).2.pageReqs, q.2.2 ≤ k := by
  intro fuel
  induction fuel with
  | zero => intro page _ q hq; simp [findPages] at hq
  | succ fuel ih =>
    intro page hpk q hq
    rcases hp : w.actsPage PER_PAGE page with e | body
    · rw [findPages, hp] at hq
      simp only [List.mem_singleton] at hq
      subst hq; exact hpk
    · rcases body with _ | acts
      · rw [findPages, hp] at hq
        simp only [List.mem_singleton] at hq
        subst hq; exact hpk
      · rcases acts with _ | ⟨a, rest⟩
        · rw [findPages, hp] at hq
          simp only [List.mem_singleton] at hq
          subst hq; exact hpk
        · have hne : page ≠ k := by
            intro h; rw [h, hk] at hp; simp at hp
          rw [findPages, hp] at hq
          dsimp only at hq
          rcases hs : (scanPage w access (a :: rest)).1 with _ | hit
          · rw [hs] at hq
            simp only [List.mem_cons] at hq
            rcases hq with hq | hq
            · subst hq; exact hpk
            · exact ih (page + 1) (by omega) q hq
          · rw [hs] at hq
            simp only [List.mem_singleton] at hq
            subst hq; exact hpk

lemma findPages_ok_of_no_error (w : World) (access : String) :
    ∀ fuel page,
      (∀ p, page ≤ p → p < page + fuel → ∀ e, w.actsPage PER_PAGE p ≠ Except.error e) →
      ∃ o, (findPages w access fuel page).1 = Except.ok o := by
  intro fuel
  induction fuel with
  | zero => intro page _; exact ⟨none, by simp [findPages]⟩
  | succ fuel ih =>
    intro page hne
    rcases hp : w.actsPage PER_PAGE page with e | body
    · exact absurd hp (hne page (le_refl _) (by omega) e)
    · rcases body with _ | acts
      · exact ⟨none, by simp [findPages, hp]⟩
      · rcases acts with _ | ⟨a, rest⟩
        · exact ⟨none, by simp [findPages, hp]⟩
        · rcases hs : (scanPage w access (a :: rest)).1 with _ | hit
          · obtain ⟨o, ho⟩ := ih (page + 1) (fun p h1 h2 e => hne p (by omega) (by omega) e)
            refine ⟨o, ?_⟩
            rw [findPages, hp]
            dsimp only
            rw [hs]
            simpa using ho
          · refine ⟨some hit, ?_⟩
            rw [findPages, hp]
            dsimp only
            rw [hs]

lemma refresh_err_rot {w : World} {fs : FS} {e : String}
    (h : refreshAccessToken w fs = Except.error e) :
    rotationAfterExchange w fs = fs.rotation := by
  rw [rotationAfterExchange, h]

lemma refresh_ok_fs {w : World} {fs : FS} {ac : String} {fs1 : FS}
    (h : refreshAccessToken w fs = Except.ok (ac, fs1)) :
    fs1.payload = fs.payload ∧ fs1.payloadWrites = fs.payloadWrites ∧
      fs1.rotation = rotationAfterExchange w fs := by
  have hrot : rotationAfterExchange w fs = fs1.rotation := by
    rw [rotationAfterExchange, h]
  rw [refreshAccessToken] at h
  rcases ht : w.tokenRes with e | d <;> rw [ht] at h <;> dsimp only at h
  · exact absurd h (by simp)
  · rcases hrt : d.refresh_token with _ | rt <;> rw [hrt] at h <;> dsimp only at h
    · simp only [Except.ok.injEq, Prod.mk.injEq] at h
      rcases h with ⟨h1, h2⟩
      subst h2
      exact ⟨rfl, rfl, hrot.symm⟩
    · by_cases hc : rt ≠ "" ∧ rt ≠ w.inputRefreshToken
      · rw [if_pos hc] at h
        simp only [Except.ok.injEq, Prod.mk.injEq] at h
        rcases h with ⟨h1, h2⟩
        subst h2
        exact ⟨rfl, rfl, hrot.symm⟩
      · rw [if_neg hc] at h
        simp only [Except.ok.injEq, Prod.mk.injEq] at h
        rcases h with ⟨h1, h2⟩
        subst h2
        exact ⟨rfl, rfl, hrot.symm⟩

lemma refresh_ok_access {w : World} {fs : FS} {ac : String} {fs1 : FS} {d : TokenData}
    (ht : w.tokenRes = Except.ok d)
    (h : refreshAccessToken w fs = Except.ok (ac, fs1)) : ac = d.access_token := by
  rw [refreshAccessToken, ht] at h
  dsimp only at h
  rcases hrt : d.refresh_token with _ | rt <;> rw [hrt] at h <;> dsimp only at h
  · simp only [Except.ok.injEq, Prod.mk.injEq] at h
    exact h.1.symm
  · by_cases hc : rt ≠ "" ∧ rt ≠ w.inputRefreshToken
    · rw [if_pos hc] at h
      simp only [Except.ok.injEq, Prod.mk.injEq] at h
      exact h.1.symm
    · rw [if_neg hc] at h
      simp only [Except.ok.injEq, Prod.mk.injEq] at h
      exact h.1.symm

lemma refresh_rotated {w : World} {fs : FS} {d : TokenData} {rt : String}
    (ht : w.tokenRes = Except.ok d) (hr : d.refresh_token = some rt)
    (hne : rt ≠ "") (hdiff : rt ≠ w.inputRefreshToken) :
    refreshAccessToken w fs = Except.ok (d.access_token, { fs with rotation := some rt }) := by
  rw [refreshAccessToken, ht]
  dsimp only
  rw [hr]
  dsimp only
  rw [if_pos ⟨hne, hdiff⟩]

lemma runBody_cases (w : World) (fs : FS) :
    (∃ e t, runBody w fs = Except.error (e, fs, t) ∧
      rotationAfterExchange w fs = fs.rotation) ∨
    (∃ ac fs1, refreshAccessToken w fs = Except.ok (ac, fs1) ∧
      ((∃ e t, runBody w fs = Except.error (e, fs1, t)) ∨
       (∃ p t, runBody w fs = Except.ok (writePayload p fs1, t)))) := by
  rcases hr : refreshAccessToken w fs with e | ⟨ac, fs1⟩
  · left
    refine ⟨e, ⟨[], [], 0⟩, ?_, refresh_err_rot hr⟩
    rw [runBody, hr]
  · right
    refine ⟨ac, fs1, rfl, ?_⟩
    rcases hf : (findLatestActivityWithPhoto w ac).1 with e | o
    · left
      refine ⟨e, (findLatestActivityWithPhoto w ac).2, ?_⟩
      rw [runBody, hr]
      dsimp only
      rw [hf]
    · rcases o with _ | hit
      · rcases hb2 : w.actsPage 1 1 with e | body
        · left
          refine ⟨e, ⟨(findLatestActivityWithPhoto w ac).2.pageReqs ++ [(ac, 1, 1)],
            (findLatestActivityWithPhoto w ac).2.resolved,
            (findLatestActivityWithPhoto w ac).2.examined⟩, ?_⟩
          rw [runBody, hr]
          dsimp only
          rw [hf]
          dsimp only
          rw [hb2]
        · rcases hh : (body.getD []).head? with _ | a
          · right
            refine ⟨Payload.error ("No activities found") w.now,
              ⟨(findLatestActivityWithPhoto w ac).2.pageReqs ++ [(ac, 1, 1)],
               (findLatestActivityWithPhoto w ac).2.resolved,
               (findLatestActivityWithPhoto w ac).2.examined⟩, ?_⟩
            rw [runBody, hr]
            dsimp only
            rw [hf]
            dsimp only
            rw [hb2]
            dsimp only
            rw [hh]
          · right
            refine ⟨Payload.success (athleteUrl w) (activityUrl a.id) none
              (buildStats a) w.now,
              ⟨(findLatestActivityWithPhoto w ac).2.pageReqs ++ [(ac, 1, 1)],
               (findLatestActivityWithPhoto w ac).2.resolved,
               (findLatestActivityWithPhoto w ac).2.examined⟩, ?_⟩
            rw [runBody, hr]
            dsimp only
            rw [hf]
            dsimp only
            rw [hb2]
            dsimp only
            rw [hh]
      · right
        refine ⟨Payload.success (athleteUrl w) (activityUrl hit.1.id) (some hit.2)
          (buildStats hit.1) w.now, (findLatestActivityWithPhoto w ac).2, ?_⟩
        rw [runBody, hr]
        dsimp only
        rw [hf]

lemma runScript_fs_shape (w : World) (fs : FS) :
    ∃ p fs1, (runScript w fs).1 = writePayload p fs1
      ∧ fs1.payload = fs.payload ∧ fs1.payloadWrites = fs.payloadWrites
      ∧ fs1.rotation = rotationAfterExchange w fs := by
  rcases runBody_cases w fs with ⟨e, t, hb, hrot⟩ | ⟨ac, fs1, hr, ⟨e, t, hb⟩ | ⟨p, t, hb⟩⟩
  · exact ⟨Payload.error e w.now, fs, by rw [runScript, hb], rfl, rfl, hrot.symm⟩
  · obtain ⟨h1, h2, h3⟩ := refresh_ok_fs hr
    exact ⟨Payload.error e w.now, fs1, by rw [runScript, hb], h1, h2, h3⟩
  · obtain ⟨h1, h2, h3⟩ := refresh_ok_fs hr
    exact ⟨p, fs1, by rw [runScript, hb], h1, h2, h3⟩

lemma runScript_rotation (w : World) (fs : FS) :
    (runScript w fs).1.rotation = rotationAfterExchange w fs := by
  obtain ⟨p, fs1, hw, _, _, hrot⟩ := runScript_fs_shape w fs
  rw [hw, writePayload]
  exact hrot

lemma runScript_trace (w : World) (fs : FS) (ac : String) (fs1 : FS)
    (hr : refreshAccessToken w fs = Except.ok (ac, fs1)) :
    (runScript w fs).2 = (findLatestActivityWithPhoto w ac).2 ∨
    (runScript w fs).2 = ⟨(findLatestActivityWithPhoto w ac).2.pageReqs ++ [(ac, 1, 1)],
      (findLatestActivityWithPhoto w ac).2.resolved,
      (findLatestActivityWithPhoto w ac).2.examined⟩ := by
  rw [runScript, runBody, hr]
  dsimp only
  rcases hf : (findLatestActivityWithPhoto w ac).1 with e | o
  · left; rfl
  · rcases o with _ | hit
    · dsimp only
      rcases hb2 : w.actsPage 1 1 with e | body
      · right; rfl
      · dsimp only
        rcases hh : (body.getD []).head? with _ | a
        · right; rfl
        · right; rfl
    · left; rfl

lemma runScript_trace_bearer (w : World) (fs : FS) (ac : String) (fs1 : FS)
    (hr : refreshAccessToken w fs = Except.ok (ac, fs1)) :
    (∀ q ∈ (runScript w fs).2.pageReqs, q.1 = ac) ∧
    (∀ q ∈ (runScript w fs).2.resolved, q.1 = ac) := by
  have hp : ∀ q ∈ (findLatestActivityWithPhoto w ac).2.pageReqs, q.1 = ac :=
    fun q hq => (findPages_pageReqs w ac MAX_PAGES 1 q hq).1
  have hs : ∀ q ∈ (findLatestActivityWithPhoto w ac).2.resolved, q.1 = ac :=
    fun q hq => (findPages_resolved w ac MAX_PAGES 1 q hq).1
  rcases runScript_trace w fs ac fs1 hr with ht | ht <;> rw [ht]
  · exact ⟨hp, hs⟩
  · refine ⟨?_, hs⟩
    intro q hq
    simp only [List.mem_append, List.mem_singleton] at hq
    rcases hq with hq | hq
    · exact hp q hq
    · subst hq; rfl

lemma findPages_empty_first {w : World} {access : String} {fuel page : Nat}
    (h0 : 0 < fuel) (h : w.actsPage PER_PAGE page = Except.ok (some [])) :
    findPages w access fuel page =
      (Except.ok none, ⟨[(access, PER_PAGE, page)], [], 0⟩) := by
  rcases fuel with _ | fuel
  · omega
  · rw [findPages, h]

lemma refresh_ok_exists {w : World} (fs : FS) {d : TokenData}
    (ht : w.tokenRes = Except.ok d) :
    ∃ fs1, refreshAccessToken w fs = Except.ok (d.access_token, fs1) := by
  rw [refreshAccessToken, ht]
  dsimp only
  rcases hrt : d.refresh_token with _ | rt
  · exact ⟨fs, rfl⟩
  · dsimp only
    by_cases hc : rt ≠ "" ∧ rt ≠ w.inputRefreshToken
    · rw [if_pos hc]; exact ⟨_, rfl⟩
    · rw [if_neg hc]; exact ⟨fs, rfl⟩

/-- C1: every run of the batch pipeline writes exactly one ResultPayload:
the payload-write counter rises by exactly one, the final state always
holds a payload, and an exception thrown anywhere in the body is caught at
the outermost level and converted into the error-and-fetchedAt payload. -/
theorem C1_payload_always_written (w : World) (fs : FS) :
    (runScript w fs).1.payloadWrites = fs.payloadWrites + 1
    ∧ (∃ p, (runScript w fs).1.payload = some p)
    ∧ (∀ e fs1 t, runBody w fs = Except.error (e, fs1, t) →
        (runScript w fs).1.payload = some (Payload.error e w.now)) := by
  obtain ⟨p, fs1, hw, hpay, hwr, _⟩ := runScript_fs_shape w fs
  refine ⟨?_, ⟨p, ?_⟩, ?_⟩
  · rw [hw]
    simp [writePayload, hwr]
  · rw [hw]
    simp [writePayload]
  · intro e fs2 t hb
    rw [runScript, hb]
    simp [writePayload]

/-- Witness for C1 on a concrete world whose feed fetch throws after a
successful exchange: the outermost catch records the thrown message. -/
theorem C1_payload_always_written_witness :
    (runScript worldRotateThenFail {}).1.payload = some (Payload.error ("boom") ("T")) :=
  (C1_payload_always_written worldRotateThenFail {}).2.2 ("boom")
    { rotation := some ("R1") } ⟨[("A", 50, 1)], [], 0⟩ (by rfl)

/-- C10: the rotation side-channel file is governed solely by the token
exchange: on every path the final rotation file equals its post-exchange
state, and on a thrown error the catch handler writes only the payload
file over the throw-time state, leaving its rotation file untouched. -/
theorem C10_rotation_survives_failure (w : World) (fs : FS) :
    (runScript w fs).1.rotation = rotationAfterExchange w fs
    ∧ (∀ e fs1 t, runBody w fs = Except.error (e, fs1, t) →
        (runScript w fs).1 = writePayload (Payload.error e w.now) fs1
        ∧ (runScript w fs).1.rotation = fs1.rotation
        ∧ (runScript w fs).1.payload = some (Payload.error e w.now)) := by
  refine ⟨runScript_rotation w fs, ?_⟩
  intro e fs1 t hb
  have h1 : (runScript w fs).1 = writePayload (Payload.error e w.now) fs1 := by
    rw [runScript, hb]
  exact ⟨h1, by rw [h1]; simp [writePayload], by rw [h1]; simp [writePayload]⟩

/-- Witness for C10 on a concrete world that rotates the refresh token and
then fails discovery: the rotation file survives the error payload. -/
theorem C10_rotation_survives_failure_witness :
    (runScript worldRotateThenFail {}).1.rotation = some ("R1") ∧
    (runScript worldRotateThenFail {}).1.payload = some (Payload.error ("boom") ("T")) := by
  have h := (C10_rotation_survives_failure worldRotateThenFail {}).2 ("boom")
    { rotation := some ("R1") } ⟨[("A", 50, 1)], [], 0⟩ (by rfl)
  exact ⟨h.2.1.trans (by rfl), h.2.2⟩

/-- C7: when the feed returns zero activities on page 1, and hence also on
the fallback single-activity fetch against the same unchanged feed, the
written ResultPayload is exactly the no-activities error shape. -/
theorem C7_no_activities_error (w : World) (fs : FS) (d : TokenData)
    (ht : w.tokenRes = Except.ok d)
    (h1 : w.actsPage 50 1 = Except.ok (some []))
    (h2 : w.actsPage 1 1 = Except.ok (some [])) :
    (runScript w fs).1.payload = some (Payload.error ("No activities found") w.now) := by
  obtain ⟨fs1, hr⟩ := refresh_ok_exists fs ht
  have hfind : findLatestActivityWithPhoto w d.access_token =
      (Except.ok none, ⟨[(d.access_token, PER_PAGE, 1)], [], 0⟩) := by
    rw [findLatestActivityWithPhoto]
    exact findPages_empty_first (by decide) h1
  rw [runScript, runBody, hr]
  dsimp only
  rw [hfind]
  dsimp only
  rw [h2]
  simp [writePayload]

/-- Witness for C7 on a concrete world with an empty feed. -/
theorem C7_no_activities_error_witness :
    (runScript worldEmptyFeed {}).1.payload
      = some (Payload.error ("No activities found") ("T")) :=
  C7_no_activities_error worldEmptyFeed {} { access_token := "A" }
    (by rfl) (by rfl) (by rfl)

/-- C6: a rotated refresh token is written to the rotation side channel
exactly as received, the run continues on the access token of that same
exchange for every authorized request it issues, and whenever the rotated
token differs from that access token it is never used as a bearer. -/
theorem C6_rotation_captured (w : World) (fs : FS) (d : TokenData) (rt : String)
    (ht : w.tokenRes = Except.ok d) (hr : d.refresh_token = some rt)
    (hne : rt ≠ "") (hdiff : rt ≠ w.inputRefreshToken) :
    (runScript w fs).1.rotation = some rt
    ∧ (∀ q ∈ (runScript w fs).2.pageReqs, q.1 = d.access_token)
    ∧ (∀ q ∈ (runScript w fs).2.resolved, q.1 = d.access_token)
    ∧ (d.access_token ≠ rt →
        (∀ q ∈ (runScript w fs).2.pageReqs, q.1 ≠ rt)
        ∧ (∀ q ∈ (runScript w fs).2.resolved, q.1 ≠ rt)) := by
  have hre : refreshAccessToken w fs
      = Except.ok (d.access_token, { fs with rotation := some rt }) :=
    refresh_rotated ht hr hne hdiff
  have hrot : rotationAfterExchange w fs = some rt := by
    rw [rotationAfterExchange, hre]
  obtain ⟨hp, hs⟩ := runScript_trace_bearer w fs d.access_token _ hre
  refine ⟨by rw [runScript_rotation, hrot], hp, hs, ?_⟩
  intro hane
  exact ⟨fun q hq => by rw [hp q hq]; exact hane,
         fun q hq => by rw [hs q hq]; exact hane⟩

/-- Witness for C6 on a concrete world whose exchange rotates the refresh
token to R1 and whose run then completes successfully. -/
theorem C6_rotation_captured_witness :
    (runScript worldGeneric {}).1.rotation = some ("R1") :=
  (C6_rotation_captured worldGeneric {}
    { access_token := "A", refresh_token := some ("R1") } ("R1")
    (by rfl) (by rfl) (by decide) (by decide)).1

/-- C3: photo resolution tries the gallery tier first and the cover-photo
tier second; a thrown transport error or a non-success status at the
gallery tier just moves resolution to the cover tier, the result is none
exactly when both tiers are exhausted, and when the gallery tier throws
while the cover tier succeeds the resolved photo is the cover URL.  The
resolver is a total function, so no failure escapes it. -/
theorem C3_two_tier_best_effort (w : World) (id : Nat) :
    (∀ u, galleryBest w id = some u → resolvePhoto w id = some u)
    ∧ (galleryBest w id = none → resolvePhoto w id = detailBest w id)
    ∧ ((w.gallery id 2048 = TResp.throwErr ∨ w.gallery id 2048 = TResp.notOk) →
        resolvePhoto w id = detailBest w id)
    ∧ ((w.detail id = TResp.throwErr ∨ w.detail id = TResp.notOk) →
        detailBest w id = none)
    ∧ (resolvePhoto w id = none ↔ galleryBest w id = none ∧ detailBest w id = none)
    ∧ (∀ p u, w.gallery id 2048 = TResp.throwErr → w.detail id = TResp.ok (some p) →
        pickBestPhotoUrl (some p) = some u → resolvePhoto w id = some u) := by
  have hord : ∀ u, galleryBest w id = some u → resolvePhoto w id = some u := by
    intro u hu
    rw [resolvePhoto, hu]
  have hnone : galleryBest w id = none → resolvePhoto w id = detailBest w id := by
    intro hu
    rw [resolvePhoto, hu]
  have hfail : (w.gallery id 2048 = TResp.throwErr ∨ w.gallery id 2048 = TResp.notOk) →
      resolvePhoto w id = detailBest w id := by
    intro h
    have hg : galleryBest w id = none := by
      rcases h with h | h <;> rw [galleryBest, h]
    exact hnone hg
  refine ⟨hord, hnone, hfail, ?_, ?_, ?_⟩
  · intro h
    rcases h with h | h <;> rw [detailBest, h]
  · constructor
    · intro h
      rcases hg : galleryBest w id with _ | u
      · exact ⟨rfl, by rw [← hnone hg]; exact h⟩
      · rw [hord u hg] at h
        exact absurd h (by simp)
    · intro hb
      rw [resolvePhoto, hb.1, hb.2]
  · intro p u hthrow hdet hpick
    have hg : galleryBest w id = none := by rw [galleryBest, hthrow]
    rw [hnone hg, detailBest, hdet]
    exact hpick

/-- Witness for C3 on a concrete world whose gallery tier throws while the
cover tier carries a photo with the generic URL. -/
theorem C3_two_tier_best_effort_witness : resolvePhoto worldCover 1 = some ("U") :=
  (C3_two_tier_best_effort worldCover 1).2.2.2.2.2 photoGeneric ("U")
    (by rfl) (by rfl) (by rfl)

/-- C4: the photo resolver is never invoked on an activity whose photo
count is zero or absent: every resolver invocation of a discovery scan is
on an activity with a positive photo count. -/
theorem C4_zero_count_skipped (w : World) (access : String) :
    ∀ q ∈ (findLatestActivityWithPhoto w access).2.resolved,
      0 < q.2.total_photo_count.getD 0 :=
  fun q hq => (findPages_resolved w access MAX_PAGES 1 q hq).2

/-- Witness for C4 on a concrete world: the one resolver invocation of the
run is on the photo-carrying activity. -/
theorem C4_zero_count_skipped_witness :
    0 < ((("A" : String), runActivity).2.total_photo_count.getD 0) :=
  C4_zero_count_skipped worldBoth ("A") ("A", runActivity)
    (List.mem_singleton.mpr rfl)

/-- C5: discovery is a bounded scan: the first request is page 1 at page
size 50, every request is at page size 50 with page number between 1 and
40, at most 40 page requests are issued, at most 2000 activities are
examined when pages honour the page size, an empty page stops the scan,
and when no page fetch fails the outcome is a non-error result, the
not-found case included. -/
theorem C5_bounded_termination (w : World) (access : String) :
    (findLatestActivityWithPhoto w access).2.pageReqs.head? = some (access, 50, 1)
    ∧ (∀ q ∈ (findLatestActivityWithPhoto w access).2.pageReqs,
        q.1 = access ∧ q.2.1 = 50 ∧ 1 ≤ q.2.2 ∧ q.2.2 ≤ 40)
    ∧ (findLatestActivityWithPhoto w access).2.pageReqs.length ≤ 40
    ∧ ((∀ p acts, w.actsPage 50 p = Except.ok (some acts) → acts.length ≤ 50) →
        (findLatestActivityWithPhoto w access).2.examined ≤ 2000)
    ∧ (∀ k, 1 ≤ k → w.actsPage 50 k = Except.ok (some []) →
        ∀ q ∈ (findLatestActivityWithPhoto w access).2.pageReqs, q.2.2 ≤ k)
    ∧ ((∀ p, 1 ≤ p → p ≤ 40 → ∀ e, w.actsPage 50 p ≠ Except.error e) →
        ∃ o, (findLatestActivityWithPhoto w access).1 = Except.ok o) := by
  refine ⟨findPages_head w access MAX_PAGES 1 (by decide), ?_, ?_, ?_, ?_, ?_⟩
  · intro q hq
    obtain ⟨ha, hpp, hlo, hhi⟩ := findPages_pageReqs w access MAX_PAGES 1 q hq
    have hmp : MAX_PAGES = 40 := rfl
    exact ⟨ha, hpp, hlo, by have h40 : q.2.2 < 1 + MAX_PAGES := hhi; omega⟩
  · exact findPages_reqs_len w access MAX_PAGES 1
  · intro hlen
    exact findPages_examined w access hlen MAX_PAGES 1
  · intro k hk hke q hq
    exact findPages_empty_stop w access k hke MAX_PAGES 1 hk q hq
  · intro hne
    refine findPages_ok_of_no_error w access MAX_PAGES 1 ?_
    intro p h1 h2 e
    have hmp : MAX_PAGES = 40 := rfl
    exact hne p h1 (by have h40 : p < 1 + MAX_PAGES := h2; omega) e

/-- Witness for C5 on a concrete world whose feed is empty: one page
request is made, nothing is examined, and the outcome is not-found. -/
theorem C5_bounded_termination_witness :
    (findLatestActivityWithPhoto worldEmptyFeed ("A")).2.pageReqs.head?
      = some ("A", 50, 1)
    ∧ (findLatestActivityWithPhoto worldEmptyFeed ("A")).2.examined ≤ 2000
    ∧ ∃ o, (findLatestActivityWithPhoto worldEmptyFeed ("A")).1 = Except.ok o := by
  refine ⟨(C5_bounded_termination worldEmptyFeed ("A")).1, ?_, ?_⟩
  · refine (C5_bounded_termination worldEmptyFeed ("A")).2.2.2.1 ?_
    intro p acts h
    have hacts : acts = [] := by
      simpa [worldEmptyFeed] using h.symm
    simp [hacts]
  · refine (C5_bounded_termination worldEmptyFeed ("A")).2.2.2.2.2 ?_
    intro p h1 h2 e
    simp [worldEmptyFeed]

/-- C2: for a run-like activity with positive distance the stats are the
run variant with pace equal to movingTime over distanceKm rendered as
integer minutes and zero-padded rounded seconds per km, distance to two
decimals with the km unit, and a duration rendered H:MM:SS at one hour
and above and M:SS below, seconds rounded; at 5000 metres and 1500
seconds this yields 5:00 per km, 5.00 km and 25:00. -/
theorem C2_run_stats (a : Activity)
    (hk : strOr a.sport_type a.type = some "Run"
        ∨ strOr a.sport_type a.type = some "TrailRun")
    (hd : 0 < distKmOf a) :
    buildStats a = Stats.run
      (fix2 (distKmOf a) ++ " km")
      (toString ⌊movingOf a / distKmOf a / 60⌋ ++ ":"
        ++ pad2 (jsRound (jsMod (movingOf a / distKmOf a) 60)) ++ "/km")
      (hms (movingOf a))
    ∧ (∀ t : ℚ, 0 ≤ t →
        (3600 ≤ t → hms t = toString ⌊t / 3600⌋ ++ ":" ++ pad2 ⌊jsMod t 3600 / 60⌋
            ++ ":" ++ pad2 (jsRound (jsMod t 60))
          ∧ 0 < ⌊t / 3600⌋ ∧ 0 ≤ ⌊jsMod t 3600 / 60⌋ ∧ ⌊jsMod t 3600 / 60⌋ < 60
          ∧ 0 ≤ jsRound (jsMod t 60) ∧ jsRound (jsMod t 60) ≤ 60)
        ∧ (t < 3600 → hms t = toString ⌊t / 60⌋ ++ ":" ++ pad2 (jsRound (jsMod t 60))
          ∧ 0 ≤ ⌊t / 60⌋ ∧ ⌊t / 60⌋ < 60
          ∧ 0 ≤ jsRound (jsMod t 60) ∧ jsRound (jsMod t 60) ≤ 60))
    ∧ buildStats runActivity = Stats.run ("5.00 km") ("5:00/km") ("25:00") := by
  refine ⟨?_, ?_, ?_⟩
  · rw [buildStats]
    dsimp only
    rw [if_pos ⟨hk, hd⟩]
  · intro t ht
    exact ⟨fun h1 => hms_long ht h1, fun h1 => hms_short ht h1⟩
  · norm_num [buildStats, distKmOf, movingOf, runActivity, strOr, fix2, hms,
      jsMod, jsTrunc, jsRound, pad2]
    refine ⟨by decide, by decide, by decide⟩

/-- Witness for C2 at the worked 5000 metre and 1500 second run. -/
theorem C2_run_stats_witness :
    buildStats runActivity = Stats.run ("5.00 km") ("5:00/km") ("25:00") :=
  (C2_run_stats runActivity (Or.inl (by rfl))
    (by norm_num [distKmOf, runActivity])).2.2

/-- C8: a zero or absent distance always yields the duration-only stats
variant, which carries neither a pace nor a speed field; and the ride
branch never divides by a zero moving time: its guard renders the speed
as 0.0 km/h instead. -/
theorem C8_zero_distance_guard (a : Activity)
    (hd : a.distance = none ∨ a.distance = some 0) :
    buildStats a = Stats.other (hms (movingOf a))
    ∧ (∀ b : Activity,
        (strOr b.sport_type b.type = some "Ride"
          ∨ strOr b.sport_type b.type = some "VirtualRide") →
        0 < distKmOf b → movingOf b = 0 →
        buildStats b = Stats.ride (fix2 (distKmOf b) ++ " km") ("0.0 km/h")
          (hms (movingOf b))) := by
  constructor
  · have hdk : distKmOf a = 0 := by
      rcases hd with h | h <;> simp [distKmOf, h]
    rw [buildStats]
    dsimp only
    rw [hdk]
    simp
  · intro b hkind hdb hmb
    have hnotrun : ¬ ((strOr b.sport_type b.type = some "Run"
        ∨ strOr b.sport_type b.type = some "TrailRun") ∧ 0 < distKmOf b) := by
      rcases hkind with h | h <;> simp [h]
    rw [buildStats]
    dsimp only
    rw [if_neg hnotrun, if_pos ⟨hkind, hdb⟩, hmb]
    have hif : (if 0 < (0:ℚ) / 3600 then distKmOf b / ((0:ℚ) / 3600) else 0) = 0 := by
      norm_num
    rw [hif]
    have hfix : fix1 0 = "0.0" := by
      have h0 : ⌊(0:ℚ) * 10 + 1/2⌋ = 0 := by norm_num
      rw [fix1, h0]
      decide
    rw [hfix]
    rfl

/-- Witness for C8 at a ride activity with an absent distance. -/
theorem C8_zero_distance_guard_witness :
    buildStats rideNoDistance = Stats.other ("1:40") := by
  have h := (C8_zero_distance_guard rideNoDistance (Or.inl rfl)).1
  rw [h]
  norm_num [movingOf, rideNoDistance, hms, jsMod, jsTrunc, jsRound, pad2]
  decide

lemma scanPage_cons_hit {w : World} {access : String} {a : Activity}
    {rest : List Activity} {u : String}
    (hc : 0 < a.total_photo_count.getD 0) (hres : resolvePhoto w a.id = some u) :
    (scanPage w access (a :: rest)).1 = some (a, u) := by
  rw [scanPage, if_neg (not_le.mpr hc), hres]

lemma findPages_first_hit {w : World} {access : String} {fuel page : Nat}
    {a : Activity} {rest : List Activity} {hit : Activity × String}
    (h0 : 0 < fuel) (hp : w.actsPage PER_PAGE page = Except.ok (some (a :: rest)))
    (hs : (scanPage w access (a :: rest)).1 = some hit) :
    (findPages w access fuel page).1 = Except.ok (some hit) := by
  rcases fuel with _ | fuel
  · omega
  · rw [findPages, hp]
    dsimp only
    rw [hs]

lemma pickBest_generic {p : Photo} {u : String}
    (h1 : p.urls2048 = none) (h2 : p.urls1200 = none) (h3 : p.urls1000 = none)
    (h4 : p.url = some u) (hu : u ≠ "") :
    pickBestPhotoUrl (some p) = some u ∧ pickHandlerPhotoUrl (some p) = some u := by
  constructor <;> simp [pickBestPhotoUrl, pickHandlerPhotoUrl, strOr, h1, h2, h3, h4, hu]

lemma resolve_generic {w : World} {id : Nat} {p : Photo} {u : String} {ps : List Photo}
    (hg : w.gallery id 2048 = TResp.ok (some (p :: ps)))
    (h1 : p.urls2048 = none) (h2 : p.urls1200 = none) (h3 : p.urls1000 = none)
    (h4 : p.url = some u) (hu : u ≠ "") :
    resolvePhoto w id = some u := by
  have hgb : galleryBest w id = some u := by
    rw [galleryBest, hg]
    exact (pickBest_generic h1 h2 h3 h4 hu).1
  rw [resolvePhoto, hgb]

lemma handlerStats_eq_buildStats {a : Activity} (hsp : a.sport_type = none)
    (hk : a.type = some "Run" ∨ a.type = some "TrailRun") :
    handlerStats a = buildStats a := by
  have htype : strOr a.sport_type a.type = a.type := by rw [hsp]; rfl
  rw [handlerStats, buildStats, htype]
  by_cases hdk : 0 < distKmOf a
  · rw [if_pos ⟨hk, hdk⟩, if_pos ⟨hk, hdk⟩]
  · rw [if_neg (fun h => hdk h.2), if_neg (fun h => hdk h.2), if_neg (fun h => hdk h.2)]

/-- C9 counterexample: the live handler does not implement the same photo
resolution as the batch pipeline.  On `worldBoth`, whose gallery answers
with the same photo carrying both a 2048 and a 1200 sized URL at every
requested size, the batch pipeline resolves the 2048 URL while the live
handler resolves the 1200 URL. -/
theorem C9_handler_differs :
    (findLatestActivityWithPhoto worldBoth ("A")).1
        = Except.ok (some (runActivity, "U2048"))
    ∧ handlerGET worldBoth
        = HResp.ok (some ("U1200")) (handlerStats runActivity) (activityUrl 1)
    ∧ ("U2048" : String) ≠ "U1200" :=
  ⟨by rfl, by rfl, by decide⟩

/-- C9 amended: on feed states where the newest activity is first at both
page sizes, claims a photo, is run-typed via its type field with no sport
type, and its gallery tier succeeds at both requested sizes with a first
photo offering only the generic fallback URL, the batch pipeline and the
live handler select the same activity, resolve the same photo URL, and
compute the same stats. -/
theorem C9_restricted_equivalence (w : World) (access : String) (d : TokenData)
    (a : Activity) (p : Photo) (u : String) (restB restH : List Activity)
    (ps qs : List Photo)
    (ht : w.tokenRes = Except.ok d)
    (hb : w.actsPage 50 1 = Except.ok (some (a :: restB)))
    (hh : w.actsPage 10 1 = Except.ok (some (a :: restH)))
    (hc : 0 < a.total_photo_count.getD 0)
    (hg1 : w.gallery a.id 2048 = TResp.ok (some (p :: ps)))
    (hg2 : w.gallery a.id 1200 = TResp.ok (some (p :: qs)))
    (h1 : p.urls2048 = none) (h2 : p.urls1200 = none) (h3 : p.urls1000 = none)
    (h4 : p.url = some u) (hu : u ≠ "")
    (hsp : a.sport_type = none)
    (hk : a.type = some "Run" ∨ a.type = some "TrailRun") :
    (findLatestActivityWithPhoto w access).1 = Except.ok (some (a, u))
    ∧ handlerGET w = HResp.ok (some u) (buildStats a) (activityUrl a.id)
    ∧ handlerStats a = buildStats a := by
  have hres : resolvePhoto w a.id = some u := resolve_generic hg1 h1 h2 h3 h4 hu
  have hstats := handlerStats_eq_buildStats hsp hk
  refine ⟨?_, ?_, hstats⟩
  · rw [findLatestActivityWithPhoto]
    exact findPages_first_hit (by decide) hb (scanPage_cons_hit hc hres)
  · rw [handlerGET, ht]
    dsimp only
    rw [hh]
    dsimp only
    have hfind : List.find? (fun x => decide (0 < x.total_photo_count.getD 0))
        (a :: restH) = some a :=
      List.find?_cons_of_pos _ (by exact decide_eq_true hc)
    rw [hfind]
    dsimp only [Option.or]
    rw [hg2]
    dsimp only
    rw [(pickBest_generic h1 h2 h3 h4 hu).2, hstats]

/-- Witness for the amended C9 on a concrete world whose gallery photo
carries only the generic URL. -/
theorem C9_restricted_equivalence_witness :
    (findLatestActivityWithPhoto worldGeneric ("A")).1
        = Except.ok (some (runActivity, "U"))
    ∧ handlerGET worldGeneric
        = HResp.ok (some ("U")) (buildStats runActivity) (activityUrl 1) := by
  have h := C9_restricted_equivalence worldGeneric ("A")
    { access_token := "A", refresh_token := some ("R1") }
    runActivity photoGeneric ("U") [] [] [] []
    (by rfl) (by rfl) (by rfl) (by decide) (by rfl) (by rfl)
    (by rfl) (by rfl) (by rfl) (by rfl) (by decide) (by rfl) (Or.inl (by rfl))
  exact ⟨h.1, h.2.1⟩

end Site
